import Mathlib

/-!
Verification of the hybrid music recommendation core (music.py).

The embedding models the pandas data structures with executable Lean values:

* a `Song` is one row of `songs_df` (columns `song_id`, `title`, `artist`);
* the user-song pivot table is a list of labelled rows over a list of column
  labels, with rational listen counts (the floats that arise in the program
  are exact binary rationals, and the algorithm only adds, divides and
  compares them, so `ℚ` is a faithful carrier);
* `pandas.DataFrame.pivot` (line 13 of music.py) fails on duplicated
  `(user_id, song_id)` index entries, which the embedding renders as
  `Except.error`;
* `pivot_table.loc[user_id]` raises `KeyError` on a missing row label, which
  the embedding renders as `Option`; the `except KeyError` handler of
  `hybrid_recommend_songs` (lines 64-66) turns that into an empty result;
* `sklearn.metrics.pairwise.cosine_similarity` (line 16) L2-normalizes every
  column vector, substituting norm 1 for an all-zero column, and then takes
  pairwise dot products.  The square root inside the norm is irrational in
  general, so the embedding abstracts it as a function parameter `sqf`;
  every theorem that needs it to be a genuine square root takes that as a
  hypothesis at exactly the values where it is used;
* `Series.sort_values(ascending=False)` is modelled by `List.insertionSort`
  with a descending comparison.  numpy's quicksort and the insertion sort
  may order ties differently, but no property proved here depends on the
  order of ties: sums over the sorted rows are permutation invariant, and
  the ranked properties proved are descending-sortedness, truncation and
  membership.
-/

/-- One row of `songs_df`: the immutable song catalog record. -/
structure Song where
  song_id : ℤ
  title : String
  artist : String
  deriving DecidableEq

/-- The user-song listen-count matrix produced on line 13 of music.py:
rows are labelled by user id, columns by song id (`songIds`), and each row
carries one rational listen count per column label. -/
structure PivotTable where
  songIds : List ℤ
  rows : List (ℤ × List ℚ)
  deriving DecidableEq

/-- Error message `pandas.DataFrame.pivot` raises on duplicate index entries. -/
def dupMsg : String :=
  "Index contains duplicate entries, cannot reshape"

/-- Column labels of a pivot: the distinct values sorted ascending, as pandas
pivot produces them. -/
def sortedLabels (l : List ℤ) : List ℤ :=
  List.insertionSort (fun a b => a ≤ b) l.dedup

/-- Line 13 of music.py:
`history_df.pivot(index='user_id', columns='song_id', values='listen_count').fillna(0)`.
An event is `(user_id, song_id, listen_count)`.  `DataFrame.pivot` raises on a
duplicated `(user_id, song_id)` pair; otherwise every distinct user id becomes
a row, every distinct song id a column, and a missing pair becomes `NaN`,
turned into `0` by `fillna(0)`. -/
def pivot (events : List (ℤ × ℤ × ℚ)) : Except String PivotTable :=
  if (events.map (fun e => (e.1, e.2.1))).Nodup then
    Except.ok
      ⟨sortedLabels (events.map (fun e => e.2.1)),
       (sortedLabels (events.map (fun e => e.1))).map (fun u =>
         (u, (sortedLabels (events.map (fun e => e.2.1))).map (fun s =>
           match events.find? (fun e => decide (e.1 = u ∧ e.2.1 = s)) with
           | some e => e.2.2
           | none => 0)))⟩
  else Except.error dupMsg

/-- Dot product of two rational vectors (`Series.dot` / numpy matrix product). -/
def dotQ (v w : List ℚ) : ℚ :=
  (List.zipWith (fun a b => a * b) v w).sum

/-- `pivot_table.loc[user_id]` (line 35): row lookup by label; `none` models
the `KeyError` pandas raises when the label is absent. -/
def lookupRow (pt : PivotTable) (uid : ℤ) : Option (List ℚ) :=
  (pt.rows.find? (fun r => decide (r.1 = uid))).map Prod.snd

/-- Line 38: similarity of another user's row `r` to the target vector,
`dot(r, uvec) / max(sum(r) * sum(uvec), 1e-9)` (the `.clip(lower=1e-9)`). -/
def user_similarity (uvec r : List ℚ) : ℚ :=
  dotQ r uvec / max (r.sum * uvec.sum) (1 / 1000000000)

/-- Lines 39-41: drop the target user's own row, rank the remaining rows
descending by `user_similarity`, and select them in that order
(`pivot_table.loc[similar_users]`). -/
def similar_users_data (pt : PivotTable) (uid : ℤ) (uvec : List ℚ) :
    List (ℤ × List ℚ) :=
  List.insertionSort (fun a b => user_similarity uvec b.2 ≤ user_similarity uvec a.2)
    (pt.rows.filter (fun r => decide (¬ r.1 = uid)))

/-- Line 42: `similar_users_data.sum()` - per-column sums over the reordered
other-user rows, labelled by the column's song id.  (The subsequent
`sort_values` on this series only changes presentation order; pandas
re-aligns by label before the addition on line 49.) -/
def user_based_scores (pt : PivotTable) (uid : ℤ) (uvec : List ℚ) :
    List (ℤ × ℚ) :=
  (List.range pt.songIds.length).map (fun j =>
    (pt.songIds.getD j 0,
     ((similar_users_data pt uid uvec).map (fun r => r.2.getD j 0)).sum))

/-- Line 45 / 52: `user_vector[user_vector > 0].index` - the song labels the
target user has listened to. -/
def listened_songs (songIds : List ℤ) (uvec : List ℚ) : List ℤ :=
  ((songIds.zip uvec).filter (fun p => decide (0 < p.2))).map Prod.fst

/-- Line 46: `song_similarity_df.loc[listened_songs].sum()` - per column `s`,
the sum of similarities of `s` to every listened song.  `simf` is the song
similarity matrix the function receives as an argument. -/
def item_based_scores (pt : PivotTable) (simf : ℤ → ℤ → ℚ) (listened : List ℤ) :
    List (ℤ × ℚ) :=
  pt.songIds.map (fun s => (s, (listened.map (fun t => simf t s)).sum))

/-- Line 49: `combined_scores = user_based_scores + item_based_scores`.
Both series hold a value for exactly the pivot's column labels, and pandas
addition aligns by label, so the sum is taken label by label. -/
def combined_scores (pt : PivotTable) (simf : ℤ → ℤ → ℚ) (uid : ℤ)
    (uvec : List ℚ) : List (ℤ × ℚ) :=
  List.zipWith (fun a b => (a.1, a.2 + b.2)) (user_based_scores pt uid uvec)
    (item_based_scores pt simf (listened_songs pt.songIds uvec))

/-- Line 53: `combined_scores.drop(already_listened)` - remove every label the
user has listened to from the candidate series. -/
def recommendations_list (pt : PivotTable) (simf : ℤ → ℤ → ℚ) (uid : ℤ)
    (uvec : List ℚ) : List (ℤ × ℚ) :=
  (combined_scores pt simf uid uvec).filter
    (fun p => decide (¬ p.1 ∈ listened_songs pt.songIds uvec))

/-- The comparison of the final `sort_values(ascending=False)` on line 56:
descending by combined score. -/
def scoreGE (a b : ℤ × ℚ) : Prop :=
  b.2 ≤ a.2

instance : DecidableRel scoreGE :=
  fun a b => inferInstanceAs (Decidable (b.2 ≤ a.2))

instance : IsTotal (ℤ × ℚ) scoreGE :=
  ⟨fun a b => le_total b.2 a.2⟩

instance : IsTrans (ℤ × ℚ) scoreGE :=
  ⟨fun _ _ _ h1 h2 => le_trans h2 h1⟩

/-- Lines 56-59: sort the candidates descending by combined score and keep
the first `k` (`num_recommendations`, default 5). -/
def top_songs_list (pt : PivotTable) (simf : ℤ → ℤ → ℚ) (uid : ℤ)
    (uvec : List ℚ) (k : ℕ) : List (ℤ × ℚ) :=
  (List.insertionSort scoreGE (recommendations_list pt simf uid uvec)).take k

/-- The `try` body of `hybrid_recommend_songs` (lines 33-62): `none` is the
`KeyError` escaping from `pivot_table.loc[user_id]`.  Line 62 resolves the
top ids through the catalog, `songs_df[songs_df['song_id'].isin(top_songs.index)]`,
which keeps the catalog's own row order. -/
def hybrid_recommend_songs_core (uid : ℤ) (pt : PivotTable)
    (simf : ℤ → ℤ → ℚ) (songs_df : List Song) (k : ℕ) : Option (List Song) :=
  (lookupRow pt uid).map (fun uvec =>
    songs_df.filter (fun s =>
      decide (s.song_id ∈ (top_songs_list pt simf uid uvec k).map Prod.fst)))

/-- Lines 19-66 of music.py, handler included: on `KeyError` the function
prints a message and returns an empty DataFrame (lines 64-66), modelled by
`Option.getD []`. -/
def hybrid_recommend_songs (uid : ℤ) (pt : PivotTable) (simf : ℤ → ℤ → ℚ)
    (songs_df : List Song) (k : ℕ) : List Song :=
  (hybrid_recommend_songs_core uid pt simf songs_df k).getD []

/-- Column `j` of the pivot as a vector across users: one row of
`pivot_table.T` on line 16. -/
def colVec (pt : PivotTable) (j : ℕ) : List ℚ :=
  pt.rows.map (fun r => r.2.getD j 0)

/-- The norm sklearn's `normalize` divides by: the L2 norm of the vector,
with an all-zero vector's norm replaced by 1 (`norms[norms == 0.0] = 1.0`).
`sqf` stands for the square root. -/
def safeNorm (sqf : ℚ → ℚ) (v : List ℚ) : ℚ :=
  if dotQ v v = 0 then 1 else sqf (dotQ v v)

/-- A column divided by its safe norm: one row of sklearn's normalized input. -/
def normalizeVec (sqf : ℚ → ℚ) (v : List ℚ) : List ℚ :=
  v.map (fun x => x / safeNorm sqf v)

/-- Line 16: `cosine_similarity(pivot_table.T)` - entry `(i, j)` of the song
similarity matrix is the dot product of the normalized column vectors of
songs `i` and `j`. -/
def song_similarity (sqf : ℚ → ℚ) (pt : PivotTable) (i j : ℕ) : ℚ :=
  dotQ (normalizeVec sqf (colVec pt i)) (normalizeVec sqf (colVec pt j))

/-! Concrete fixtures used by witnesses and counterexamples. -/

/-- A similarity matrix that is identically zero. -/
def simf0 : ℤ → ℤ → ℚ :=
  fun _ _ => 0

/-- A square-root oracle adequate for `ptW`: correct at 25, the only point
where the similarity computation on `ptW` consults it. -/
def sq0 : ℚ → ℚ :=
  fun q => if q = 25 then 5 else 0

/-- Two users, two songs; song column 0 is `[3, 4]` (norm 5), column 1 is
all-zero. -/
def ptW : PivotTable :=
  ⟨[10, 20], [(1, [3, 0]), (2, [4, 0])]⟩

/-- Two users, two songs; user 1 has listened to nothing, user 2 gives song
10 score 1 and song 20 score 2. -/
def ptC3 : PivotTable :=
  ⟨[10, 20], [(1, [0, 0]), (2, [1, 2])]⟩

/-- One user, one song; user ids other than 1 are unknown. -/
def ptC1 : PivotTable :=
  ⟨[10], [(1, [1])]⟩

def songA : Song :=
  ⟨10, "A", "a"⟩

def songB : Song :=
  ⟨20, "B", "b"⟩

/-- A two-song catalog listing song 10 before song 20. -/
def catalogC3 : List Song :=
  [songA, songB]

/-- A catalog that only has a row for song 10. -/
def catalog10 : List Song :=
  [songA]

/-! Helper lemmas about the dot product. -/

theorem dotQ_cons (a b : ℚ) (v w : List ℚ) :
    dotQ (a :: v) (b :: w) = a * b + dotQ v w := by
  simp [dotQ]

theorem dotQ_comm (v w : List ℚ) : dotQ v w = dotQ w v := by
  induction v generalizing w with
  | nil => cases w <;> simp [dotQ]
  | cons a v ih =>
    cases w with
    | nil => simp [dotQ]
    | cons b w => rw [dotQ_cons, dotQ_cons, mul_comm, ih]

theorem dotQ_self_nonneg (v : List ℚ) : 0 ≤ dotQ v v := by
  induction v with
  | nil => simp [dotQ]
  | cons a v ih =>
    rw [dotQ_cons]
    exact add_nonneg (mul_self_nonneg a) ih

theorem dotQ_self_pos (v : List ℚ) (h : ∃ x ∈ v, x ≠ 0) : 0 < dotQ v v := by
  induction v with
  | nil => simp at h
  | cons a v ih =>
    rw [dotQ_cons]
    rcases h with ⟨x, hx, hxne⟩
    rcases List.mem_cons.mp hx with rfl | hmem
    · exact add_pos_of_pos_of_nonneg (mul_self_pos.mpr hxne) (dotQ_self_nonneg v)
    · exact add_pos_of_nonneg_of_pos (mul_self_nonneg a) (ih ⟨x, hmem, hxne⟩)

theorem dotQ_map_div (a b : ℚ) (v w : List ℚ) :
    dotQ (v.map (fun x => x / a)) (w.map (fun x => x / b)) = dotQ v w / (a * b) := by
  induction v generalizing w with
  | nil => simp [dotQ]
  | cons x v ih =>
    cases w with
    | nil => simp [dotQ]
    | cons y w =>
      simp only [List.map_cons]
      rw [dotQ_cons, dotQ_cons, ih, div_mul_div_comm, div_add_div_same]

theorem dotQ_zero_left (v w : List ℚ) (h : ∀ x ∈ v, x = 0) : dotQ v w = 0 := by
  induction v generalizing w with
  | nil => simp [dotQ]
  | cons a v ih =>
    cases w with
    | nil => simp [dotQ]
    | cons b w =>
      rw [dotQ_cons, h a (List.mem_cons_self a v),
        ih w (fun x hx => h x (List.mem_cons_of_mem a hx)), zero_mul, add_zero]

/-- Every entry of the similarity matrix equals the raw dot product of the two
columns divided by the product of their safe norms. -/
theorem song_similarity_eq_div (sqf : ℚ → ℚ) (pt : PivotTable) (i j : ℕ) :
    song_similarity sqf pt i j =
      dotQ (colVec pt i) (colVec pt j) /
        (safeNorm sqf (colVec pt i) * safeNorm sqf (colVec pt j)) :=
  dotQ_map_div _ _ _ _

/-- Any song id selected into the top-k list survived the line-53 filter, so
it is not one of the user's listened songs. -/
theorem mem_top_not_listened (pt : PivotTable) (simf : ℤ → ℤ → ℚ) (uid : ℤ)
    (uvec : List ℚ) (k : ℕ) (x : ℤ)
    (hx : x ∈ (top_songs_list pt simf uid uvec k).map Prod.fst) :
    x ∉ listened_songs pt.songIds uvec := by
  rcases List.mem_map.mp hx with ⟨p, hp, rfl⟩
  have hp2 : p ∈ List.insertionSort scoreGE (recommendations_list pt simf uid uvec) :=
    List.mem_of_mem_take hp
  have hp3 : p ∈ recommendations_list pt simf uid uvec :=
    (List.perm_insertionSort scoreGE _).subset hp2
  have hmem := (List.mem_filter.mp hp3).2
  simpa using hmem

/-- For a known user the function returns exactly the catalog filtered by
membership of its song id among the top-k candidate ids. -/
theorem hybrid_eq_filter (pt : PivotTable) (uid : ℤ) (uvec : List ℚ)
    (simf : ℤ → ℤ → ℚ) (songs_df : List Song) (k : ℕ)
    (h : lookupRow pt uid = some uvec) :
    hybrid_recommend_songs uid pt simf songs_df k =
      songs_df.filter (fun s =>
        decide (s.song_id ∈ (top_songs_list pt simf uid uvec k).map Prod.fst)) := by
  simp [hybrid_recommend_songs, hybrid_recommend_songs_core, h]

/-! Claim theorems. -/

/-- C1, counterexample: user 99 is not a row of `ptC1`, yet
`hybrid_recommend_songs` does not fail - it returns the empty list, the same
value a known user with no recommendations would get. -/
theorem C1_counterexample :
    lookupRow ptC1 99 = none ∧
    hybrid_recommend_songs_core 99 ptC1 simf0 catalogC3 5 = none ∧
    hybrid_recommend_songs 99 ptC1 simf0 catalogC3 5 = [] :=
  ⟨rfl, rfl, rfl⟩

/-- C1 (amended): for every user id that is not a row of the interaction
matrix, the internal row lookup fails (the `KeyError`), but
`hybrid_recommend_songs` catches it and returns the empty list, so an
unknown user is not distinguishable from a known user with an empty
recommendation list by the returned value. -/
theorem C1_unknown_user_empty (uid : ℤ) (pt : PivotTable)
    (simf : ℤ → ℤ → ℚ) (songs_df : List Song) (k : ℕ)
    (h : lookupRow pt uid = none) :
    hybrid_recommend_songs_core uid pt simf songs_df k = none ∧
    hybrid_recommend_songs uid pt simf songs_df k = [] := by
  constructor
  · simp [hybrid_recommend_songs_core, h]
  · simp [hybrid_recommend_songs, hybrid_recommend_songs_core, h]

/-- C1, witness for the amended theorem at user 99 and `ptC1`. -/
theorem C1_unknown_user_empty_witness :
    hybrid_recommend_songs_core 99 ptC1 simf0 catalogC3 5 = none ∧
    hybrid_recommend_songs 99 ptC1 simf0 catalogC3 5 = [] :=
  C1_unknown_user_empty 99 ptC1 simf0 catalogC3 5 rfl

/-- C2, counterexample: events with a duplicated (user, song) pair (counts 2
and 3) make the pivot fail with pandas' duplicate-index error; no matrix, in
particular no cell of value 5, is produced. -/
theorem C2_counterexample :
    pivot [(1, 10, (2 : ℚ)), (1, 10, 3)] = Except.error dupMsg :=
  rfl

/-- C2 (amended): for every event sequence containing a duplicated
(user, song) pair, the matrix builder does not aggregate - it fails with the
duplicate-index error of `DataFrame.pivot`; a matrix is only built from
duplicate-free event sequences. -/
theorem C2_duplicate_events_error (events : List (ℤ × ℤ × ℚ))
    (h : ¬ (events.map (fun e => (e.1, e.2.1))).Nodup) :
    pivot events = Except.error dupMsg := by
  simp [pivot, h]

/-- C2, witness for the amended theorem on the counts-2-and-3 events. -/
theorem C2_duplicate_events_error_witness :
    pivot [(1, 10, (2 : ℚ)), (1, 10, 3)] = Except.error dupMsg :=
  C2_duplicate_events_error [(1, 10, (2 : ℚ)), (1, 10, 3)] (by decide)

/-- C3, counterexample: for user 1 of `ptC3` with k = 2 the top candidates in
descending score order are song 20 (score 2) then song 10 (score 1), but the
returned records follow the catalog's row order - song 10 first - so rank
order is not preserved by the catalog resolution. -/
theorem C3_counterexample :
    (top_songs_list ptC3 simf0 1 [0, 0] 2).map Prod.fst = [20, 10] ∧
    hybrid_recommend_songs 1 ptC3 simf0 catalogC3 2 = [songA, songB] ∧
    songA.song_id = 10 ∧ songB.song_id = 20 ∧
    hybrid_recommend_songs 1 ptC3 simf0 catalogC3 2 ≠ [songB, songA] := by
  refine ⟨?_, ?_, rfl, rfl, ?_⟩ <;>
    norm_num [hybrid_recommend_songs, hybrid_recommend_songs_core, lookupRow,
      top_songs_list, recommendations_list, combined_scores, user_based_scores,
      item_based_scores, listened_songs, similar_users_data, user_similarity, dotQ,
      scoreGE, ptC3, simf0, catalogC3, songA, songB, List.insertionSort,
      List.orderedInsert, List.filter, List.find?, Song.mk.injEq]

/-- C3 (amended): for every known user and every k, the remaining candidates
are sorted descending by combined score and the top k are taken in that
order, but resolving them through the song catalog with
`songs_df[songs_df['song_id'].isin(top_songs.index)]` returns the matching
catalog rows in catalog order, not in rank order. -/
theorem C3_sorted_then_catalog_order (pt : PivotTable) (uid : ℤ)
    (uvec : List ℚ) (simf : ℤ → ℤ → ℚ) (songs_df : List Song) (k : ℕ)
    (h : lookupRow pt uid = some uvec) :
    List.Sorted scoreGE (top_songs_list pt simf uid uvec k) ∧
    hybrid_recommend_songs uid pt simf songs_df k =
      songs_df.filter (fun s =>
        decide (s.song_id ∈ (top_songs_list pt simf uid uvec k).map Prod.fst)) := by
  constructor
  · have hs : List.Sorted scoreGE
        (List.insertionSort scoreGE (recommendations_list pt simf uid uvec)) :=
      List.sorted_insertionSort scoreGE _
    exact List.Pairwise.sublist (List.take_sublist k _) hs
  · exact hybrid_eq_filter pt uid uvec simf songs_df k h

/-- C3, witness for the amended theorem at user 1 of `ptC3`. -/
theorem C3_sorted_then_catalog_order_witness :
    List.Sorted scoreGE (top_songs_list ptC3 simf0 1 [0, 0] 2) ∧
    hybrid_recommend_songs 1 ptC3 simf0 catalogC3 2 =
      catalogC3.filter (fun s =>
        decide (s.song_id ∈ (top_songs_list ptC3 simf0 1 [0, 0] 2).map Prod.fst)) :=
  C3_sorted_then_catalog_order ptC3 1 [0, 0] simf0 catalogC3 2 rfl

/-- C4: for every known user, no recommended song is one the user has
already listened to - every returned record's song id lies outside
`listened_songs` (the labels with `userVector[song] > 0`). -/
theorem C4_no_listened_song (pt : PivotTable) (uid : ℤ) (uvec : List ℚ)
    (simf : ℤ → ℤ → ℚ) (songs_df : List Song) (k : ℕ)
    (h : lookupRow pt uid = some uvec) :
    ∀ s ∈ hybrid_recommend_songs uid pt simf songs_df k,
      s.song_id ∉ listened_songs pt.songIds uvec := by
  intro s hs
  rw [hybrid_eq_filter pt uid uvec simf songs_df k h] at hs
  have hmem := (List.mem_filter.mp hs).2
  have hin : s.song_id ∈ (top_songs_list pt simf uid uvec k).map Prod.fst := by
    simpa using hmem
  exact mem_top_not_listened pt simf uid uvec k s.song_id hin

/-- C4, witness: song 10 is recommended to user 1 of `ptC3` and is indeed
not among that user's listened songs. -/
theorem C4_no_listened_song_witness :
    songA.song_id ∉ listened_songs ptC3.songIds [0, 0] :=
  C4_no_listened_song ptC3 1 [0, 0] simf0 catalogC3 2 rfl songA
    (by norm_num [hybrid_recommend_songs, hybrid_recommend_songs_core, lookupRow,
      top_songs_list, recommendations_list, combined_scores, user_based_scores,
      item_based_scores, listened_songs, similar_users_data, user_similarity, dotQ,
      scoreGE, ptC3, simf0, catalogC3, songA, songB, List.insertionSort,
      List.orderedInsert, List.filter, List.find?])

/-- C5: for every known user (with catalog ids unique, as the data model
requires of `songs_df`), the result has length at most k, and when the user
has listened to every cataloged song the result is empty while still being a
returned value (`some`), not an error. -/
theorem C5_length_le_and_all_listened_empty (pt : PivotTable) (uid : ℤ)
    (uvec : List ℚ) (simf : ℤ → ℤ → ℚ) (songs_df : List Song) (k : ℕ)
    (h : lookupRow pt uid = some uvec)
    (hnd : (songs_df.map Song.song_id).Nodup) :
    (hybrid_recommend_songs uid pt simf songs_df k).length ≤ k ∧
    ((∀ s ∈ songs_df, s.song_id ∈ listened_songs pt.songIds uvec) →
      hybrid_recommend_songs_core uid pt simf songs_df k =
        some (hybrid_recommend_songs uid pt simf songs_df k) ∧
      hybrid_recommend_songs uid pt simf songs_df k = []) := by
  have hres := hybrid_eq_filter pt uid uvec simf songs_df k h
  constructor
  · rw [hres]
    have hsubl : List.Sublist
        ((songs_df.filter (fun s =>
          decide (s.song_id ∈ (top_songs_list pt simf uid uvec k).map Prod.fst))).map
            Song.song_id)
        (songs_df.map Song.song_id) :=
      List.Sublist.map Song.song_id (List.filter_sublist songs_df)
    have hnodup := List.Nodup.sublist hsubl hnd
    have hsubset : ∀ x ∈ (songs_df.filter (fun s =>
        decide (s.song_id ∈ (top_songs_list pt simf uid uvec k).map Prod.fst))).map
          Song.song_id,
        x ∈ (top_songs_list pt simf uid uvec k).map Prod.fst := by
      intro x hx
      rcases List.mem_map.mp hx with ⟨s, hsmem, rfl⟩
      have := (List.mem_filter.mp hsmem).2
      simpa using this
    calc (songs_df.filter (fun s =>
          decide (s.song_id ∈ (top_songs_list pt simf uid uvec k).map Prod.fst))).length
        = ((songs_df.filter (fun s =>
            decide (s.song_id ∈ (top_songs_list pt simf uid uvec k).map Prod.fst))).map
              Song.song_id).length := (List.length_map _ _).symm
      _ = ((songs_df.filter (fun s =>
            decide (s.song_id ∈ (top_songs_list pt simf uid uvec k).map Prod.fst))).map
              Song.song_id).toFinset.card := (List.toFinset_card_of_nodup hnodup).symm
      _ ≤ ((top_songs_list pt simf uid uvec k).map Prod.fst).toFinset.card :=
          Finset.card_le_card (fun x hx =>
            List.mem_toFinset.mpr (hsubset x (List.mem_toFinset.mp hx)))
      _ ≤ ((top_songs_list pt simf uid uvec k).map Prod.fst).length :=
          List.toFinset_card_le _
      _ = (top_songs_list pt simf uid uvec k).length := List.length_map _ _
      _ ≤ k := by
          have : (top_songs_list pt simf uid uvec k).length =
              min k (List.insertionSort scoreGE
                (recommendations_list pt simf uid uvec)).length :=
            List.length_take _ _
          omega
  · intro hall
    have hempty : songs_df.filter (fun s =>
        decide (s.song_id ∈ (top_songs_list pt simf uid uvec k).map Prod.fst)) = [] := by
      rw [List.filter_eq_nil_iff]
      intro s hsmem
      simp only [decide_eq_true_eq]
      intro hin
      exact mem_top_not_listened pt simf uid uvec k s.song_id hin (hall s hsmem)
    refine ⟨?_, ?_⟩
    · simp [hybrid_recommend_songs, hybrid_recommend_songs_core, h]
    · rw [hres, hempty]

/-- C5, witness: user 2 of `ptC3` has listened to both cataloged songs; the
result has length at most 5 and is the empty list. -/
theorem C5_length_le_and_all_listened_empty_witness :
    (hybrid_recommend_songs 2 ptC3 simf0 catalogC3 5).length ≤ 5 ∧
    hybrid_recommend_songs 2 ptC3 simf0 catalogC3 5 = [] :=
  ⟨(C5_length_le_and_all_listened_empty ptC3 2 [1, 2] simf0 catalogC3 5 rfl
      (by decide)).1,
   ((C5_length_le_and_all_listened_empty ptC3 2 [1, 2] simf0 catalogC3 5 rfl
      (by decide)).2
     (by norm_num [listened_songs, ptC3, catalogC3, songA, songB])).2⟩

/-- C6: the song similarity matrix is exactly symmetric - for every pivot
with at least two users and two songs (and in fact for every pivot) and any
square-root function, `sim[i][j] = sim[j][i]` with exact equality. -/
theorem C6_similarity_symmetric (sqf : ℚ → ℚ) (pt : PivotTable)
    (_h2u : 2 ≤ pt.rows.length) (_h2s : 2 ≤ pt.songIds.length) (i j : ℕ) :
    song_similarity sqf pt i j = song_similarity sqf pt j i :=
  dotQ_comm _ _

/-- C6, witness at the 2-user, 2-song pivot `ptW`. -/
theorem C6_similarity_symmetric_witness :
    song_similarity sq0 ptW 0 1 = song_similarity sq0 ptW 1 0 :=
  C6_similarity_symmetric sq0 ptW (by decide) (by decide) 0 1

/-- C7: whenever the square-root function is exact on the squared norm of
column i, a column with some nonzero listen count has self-similarity exactly
1; a column that is all zeros has self-similarity 0, and every pair involving
it has similarity 0 - a defined rational value, with no division-by-zero
(the norm of a zero column is replaced by 1, as sklearn's normalize does). -/
theorem C7_similarity_diagonal (sqf : ℚ → ℚ) (pt : PivotTable) (i : ℕ) :
    ((sqf (dotQ (colVec pt i) (colVec pt i)) ^ 2 = dotQ (colVec pt i) (colVec pt i)) →
      (∃ x ∈ colVec pt i, x ≠ 0) → song_similarity sqf pt i i = 1) ∧
    ((∀ x ∈ colVec pt i, x = 0) →
      song_similarity sqf pt i i = 0 ∧
      ∀ j, song_similarity sqf pt i j = 0 ∧ song_similarity sqf pt j i = 0) := by
  constructor
  · intro hs hnz
    have hpos := dotQ_self_pos _ hnz
    have hne : dotQ (colVec pt i) (colVec pt i) ≠ 0 := ne_of_gt hpos
    have hnorm : safeNorm sqf (colVec pt i) = sqf (dotQ (colVec pt i) (colVec pt i)) := by
      simp [safeNorm, hne]
    rw [song_similarity_eq_div, hnorm, ← pow_two, hs]
    exact div_self hne
  · intro hz
    have hzero : ∀ w, dotQ (colVec pt i) w = 0 := fun w => dotQ_zero_left _ w hz
    refine ⟨?_, fun j => ⟨?_, ?_⟩⟩
    · rw [song_similarity_eq_div, hzero, zero_div]
    · rw [song_similarity_eq_div, hzero, zero_div]
    · rw [song_similarity_eq_div, dotQ_comm, hzero, zero_div]

/-- C7, witness at `ptW`: column 0 (entries 3 and 4, squared norm 25, with
`sq0` exact there) has self-similarity 1; the all-zero column 1 has
self-similarity 0 and similarity 0 against column 0. -/
theorem C7_similarity_diagonal_witness :
    song_similarity sq0 ptW 0 0 = 1 ∧
    song_similarity sq0 ptW 1 1 = 0 ∧
    song_similarity sq0 ptW 1 0 = 0 := by
  refine ⟨(C7_similarity_diagonal sq0 ptW 0).1 ?_ ?_,
    ((C7_similarity_diagonal sq0 ptW 1).2 ?_).1,
    (((C7_similarity_diagonal sq0 ptW 1).2 ?_).2 0).1⟩ <;>
    norm_num [colVec, dotQ, ptW, sq0]

/-- C8: the user-based score of every song equals the plain sum of that
song's listen counts over all rows other than the target user's - the
similarity ranking that reorders the rows on lines 40-41 never truncates, so
summation is over the full neighbor set. -/
theorem C8_user_based_full_sum (pt : PivotTable) (uid : ℤ) (uvec : List ℚ) :
    user_based_scores pt uid uvec =
      (List.range pt.songIds.length).map (fun j =>
        (pt.songIds.getD j 0,
         ((pt.rows.filter (fun r => decide (¬ r.1 = uid))).map
           (fun r => r.2.getD j 0)).sum)) := by
  refine List.map_congr_left ?_
  intro j _
  have hperm : List.Perm
      ((similar_users_data pt uid uvec).map (fun r => r.2.getD j 0))
      ((pt.rows.filter (fun r => decide (¬ r.1 = uid))).map (fun r => r.2.getD j 0)) :=
    List.Perm.map _ (List.perm_insertionSort _ _)
  rw [hperm.sum_eq]

/-- C9: the similarity computation and the recommender are deterministic pure
functions - two calls on equal inputs give equal outputs; there is no hidden
state or randomness in the model. -/
theorem C9_deterministic (sqf sqf2 : ℚ → ℚ) (pt pt2 : PivotTable)
    (uid uid2 : ℤ) (simf simf2 : ℤ → ℤ → ℚ) (songs_df songs_df2 : List Song)
    (k k2 : ℕ) (h1 : sqf = sqf2) (h2 : pt = pt2) (h3 : uid = uid2)
    (h4 : simf = simf2) (h5 : songs_df = songs_df2) (h6 : k = k2) :
    song_similarity sqf pt = song_similarity sqf2 pt2 ∧
    hybrid_recommend_songs uid pt simf songs_df k =
      hybrid_recommend_songs uid2 pt2 simf2 songs_df2 k2 := by
  subst h1 h2 h3 h4 h5 h6
  exact ⟨rfl, rfl⟩

/-- C9, witness: two identical calls at concrete inputs agree. -/
theorem C9_deterministic_witness :
    song_similarity sq0 ptC3 = song_similarity sq0 ptC3 ∧
    hybrid_recommend_songs 1 ptC3 simf0 catalogC3 2 =
      hybrid_recommend_songs 1 ptC3 simf0 catalogC3 2 :=
  C9_deterministic sq0 sq0 ptC3 ptC3 1 1 simf0 simf0 catalogC3 catalogC3 2 2
    rfl rfl rfl rfl rfl rfl

/-- C10: for a known user every returned record is a catalog row whose song
id is among the top-k candidate ids; and (concretely, at `ptC3` with the
one-row catalog `catalog10` and k = 2) a top-k id without a catalog row is
silently dropped - two candidates survive filtering and are scored, yet only
one record is returned. -/
theorem C10_catalog_resolution (pt : PivotTable) (uid : ℤ) (uvec : List ℚ)
    (simf : ℤ → ℤ → ℚ) (songs_df : List Song) (k : ℕ)
    (h : lookupRow pt uid = some uvec) :
    (∀ s ∈ hybrid_recommend_songs uid pt simf songs_df k,
      s ∈ songs_df ∧
      s.song_id ∈ (top_songs_list pt simf uid uvec k).map Prod.fst) ∧
    ((recommendations_list ptC3 simf0 1 [0, 0]).length = 2 ∧
     (top_songs_list ptC3 simf0 1 [0, 0] 2).length = 2 ∧
     (hybrid_recommend_songs 1 ptC3 simf0 catalog10 2).length = 1) := by
  constructor
  · intro s hs
    rw [hybrid_eq_filter pt uid uvec simf songs_df k h] at hs
    have := List.mem_filter.mp hs
    exact ⟨this.1, by simpa using this.2⟩
  · refine ⟨?_, ?_, ?_⟩ <;>
      norm_num [hybrid_recommend_songs, hybrid_recommend_songs_core, lookupRow,
        top_songs_list, recommendations_list, combined_scores, user_based_scores,
        item_based_scores, listened_songs, similar_users_data, user_similarity, dotQ,
        scoreGE, ptC3, simf0, catalog10, songA, List.insertionSort,
        List.orderedInsert, List.filter, List.find?]

/-- C10, witness: song 10 is returned for user 1 of `ptC3` under the one-row
catalog, is a catalog row, and its id is among the top-2 candidate ids. -/
theorem C10_catalog_resolution_witness :
    songA ∈ catalog10 ∧
    songA.song_id ∈ (top_songs_list ptC3 simf0 1 [0, 0] 2).map Prod.fst :=
  (C10_catalog_resolution ptC3 1 [0, 0] simf0 catalog10 2 rfl).1 songA
    (by norm_num [hybrid_recommend_songs, hybrid_recommend_songs_core, lookupRow,
      top_songs_list, recommendations_list, combined_scores, user_based_scores,
      item_based_scores, listened_songs, similar_users_data, user_similarity, dotQ,
      scoreGE, ptC3, simf0, catalog10, songA, List.insertionSort,
      List.orderedInsert, List.filter, List.find?])
